import Mathlib

/-!
Verification of the loanChatBot conversation state machine and session
lifecycle manager.  The definitions below are a shallow embedding of the
JavaScript sources:

* `services/sessionManager.js` — session record, mutators, completion
  check, expiry sweep;
* `services/documentRequirements.js` — the requirement catalog and the
  free-text normalizers;
* `controllers/webhookController.js` — the per-state handlers, the skip /
  status / restart commands, media upload processing and the terminal
  packaging-and-forwarding sequence.

Side effects (outbound messages, packaging, e-mail forwarding, zip
deletion scheduling) are reified as an explicit event list; fallible
collaborators (media download, file save, zip creation, e-mail delivery)
are passed in as `Except` results so every control path of the source is
represented.  Timestamps are integers (JS epoch milliseconds).
-/

namespace LoanBot

/-- An upload record as produced by `fileHandler.saveFile` and appended by
`sessionManager.addUploadedDocument` (only the fields the core reads are
kept; `uploadedAt` is stamped by `addUploadedDocument`). -/
structure UploadRecord where
  documentType : String
  fileName : String
  fileSize : Nat
  uploadedAt : Int
deriving Repr, DecidableEq

/-- The session record created by `sessionManager.createSession`
(`services/sessionManager.js`, lines 38-55). -/
structure Session where
  phoneNumber : String
  state : String
  loanType : Option String
  employmentType : Option String
  requiredDocuments : List String
  uploadedDocuments : List UploadRecord
  currentDocumentIndex : Nat
  createdAt : Int
  lastActivity : Int
deriving Repr, DecidableEq

/-- Model of `sessionManager.createSession`: a fresh INITIAL session. -/
def createSession (phoneNumber : String) (now : Int) : Session :=
  { phoneNumber := phoneNumber
    state := "INITIAL"
    loanType := none
    employmentType := none
    requiredDocuments := []
    uploadedDocuments := []
    currentDocumentIndex := 0
    createdAt := now
    lastActivity := now }

/-- Model of `sessionManager.setState`. -/
def setState (now : Int) (state : String) (s : Session) : Session :=
  { s with state := state, lastActivity := now }

/-- Model of `sessionManager.setLoanDetails` (the employment type is only written
when truthy, mirroring the `if (employmentType)` guard). -/
def setLoanDetails (now : Int) (loanType : Option String)
    (employmentType : Option String) (s : Session) : Session :=
  match employmentType with
  | some e =>
      { s with loanType := loanType, employmentType := some e,
               lastActivity := now }
  | none => { s with loanType := loanType, lastActivity := now }

/-- Model of `sessionManager.setRequiredDocuments`: installs the checklist and
resets the cursor and the upload list. -/
def setRequiredDocuments (now : Int) (documents : List String)
    (s : Session) : Session :=
  { s with requiredDocuments := documents
           currentDocumentIndex := 0
           uploadedDocuments := []
           lastActivity := now }

/-- Model of `sessionManager.addUploadedDocument`: appends the record with an
`uploadedAt` stamp. -/
def addUploadedDocument (now : Int) (info : UploadRecord) (s : Session) :
    Session :=
  { s with uploadedDocuments :=
             s.uploadedDocuments ++ [{ info with uploadedAt := now }]
           lastActivity := now }

/-- Model of `sessionManager.nextDocument`: advances the cursor. -/
def nextDocument (now : Int) (s : Session) : Session :=
  { s with currentDocumentIndex := s.currentDocumentIndex + 1
           lastActivity := now }

/-- Model of `sessionManager.isDocumentCollectionComplete`
(`services/sessionManager.js`, lines 146-149): compares the number of
upload records against the checklist length. -/
def isDocumentCollectionComplete (s : Session) : Bool :=
  s.uploadedDocuments.length ≥ s.requiredDocuments.length

/-- Model of `sessionManager.getCurrentRequiredDocument`
(`services/sessionManager.js`, lines 156-164): the checklist entry at the
cursor, or none when the cursor is past the end. -/
def getCurrentRequiredDocument (s : Session) : Option String :=
  if s.currentDocumentIndex ≥ s.requiredDocuments.length then
    none
  else
    s.requiredDocuments.get? s.currentDocumentIndex

/-- Model of `sessionManager.getRemainingDocuments`: the checklist from the cursor
to the end. -/
def getRemainingDocuments (s : Session) : List String :=
  s.requiredDocuments.drop s.currentDocumentIndex

/-- Model of `sessionManager.resetSession` (`services/sessionManager.js`, lines
181-198): replaces the record with a fresh INITIAL one. -/
def resetSession (phoneNumber : String) (now : Int) : Session :=
  { phoneNumber := phoneNumber
    state := "INITIAL"
    loanType := none
    employmentType := none
    requiredDocuments := []
    uploadedDocuments := []
    currentDocumentIndex := 0
    createdAt := now
    lastActivity := now }

/-- Model of `sessionManager.sessionTimeout`: 30 minutes in milliseconds. -/
def sessionTimeout : Int := 30 * 60 * 1000

/-- Model of `sessionManager.cleanupExpiredSessions` (`services/sessionManager.js`,
lines 246-260) over the backing map, modelled as an association list:
every entry with `now - lastActivity > sessionTimeout` is deleted. -/
def cleanupExpiredSessions (now : Int)
    (sessions : List (String × Session)) : List (String × Session) :=
  sessions.filter (fun p => ! decide (now - p.2.lastActivity > sessionTimeout))

/-! ## Requirement catalog (`services/documentRequirements.js`) -/

/-- Character-list matching at the head (helper for the JS
`String.prototype.includes` model). -/
def matchesAt : List Char → List Char → Bool
  | [], _ => true
  | _ :: _, [] => false
  | a :: as, b :: bs => a == b && matchesAt as bs

/-- Search for a needle anywhere in a haystack (helper for the JS
`String.prototype.includes` model). -/
def needleSearch (needle : List Char) : List Char → Bool
  | [] => needle.isEmpty
  | c :: rest => matchesAt needle (c :: rest) || needleSearch needle rest

/-- Model of JS `hay.includes(needle)`. -/
def strIncludes (hay needle : String) : Bool :=
  needleSearch needle.data hay.data

/-- Model of JS `s.toLowerCase()` (ASCII case folding, which covers every
key and synonym in the catalog). -/
def strToLower (s : String) : String :=
  String.mk (s.data.map Char.toLower)

/-- Whitespace stripping at both ends over the character list (helper for
the JS `String.prototype.trim` model). -/
def trimChars (l : List Char) : List Char :=
  ((l.dropWhile Char.isWhitespace).reverse.dropWhile Char.isWhitespace).reverse

/-- Model of JS `s.trim()`. -/
def strTrim (s : String) : String :=
  String.mk (trimChars s.data)

/-- The requirement matrix of `DocumentRequirements.constructor`
(`services/documentRequirements.js`): loan type → employment type →
ordered required-document list. -/
def requirements : List (String × List (String × List String)) :=
  [ ("Home",
      [ ("Salaried",
          [ "Salary Slip (Last 3 months)",
            "Bank Statement (Last 6 months)",
            "Form 16 / IT Returns",
            "Identity Proof (Aadhar/PAN)",
            "Address Proof",
            "Property Documents",
            "NOC from Builder" ]),
        ("Self-employed",
          [ "ITR (Last 2 years)",
            "Bank Statement (Last 12 months)",
            "GST Returns (Last 12 months)",
            "Business License",
            "Identity Proof (Aadhar/PAN)",
            "Address Proof",
            "Property Documents",
            "NOC from Builder",
            "Business Financial Statements" ]) ]),
    ("Business",
      [ ("Salaried",
          [ "Salary Slip (Last 3 months)",
            "Bank Statement (Last 6 months)",
            "Form 16 / IT Returns",
            "Identity Proof (Aadhar/PAN)",
            "Address Proof",
            "Business Plan",
            "Project Report" ]),
        ("Self-employed",
          [ "ITR (Last 3 years)",
            "Bank Statement (Last 12 months)",
            "GST Returns (Last 12 months)",
            "Business License",
            "Identity Proof (Aadhar/PAN)",
            "Address Proof",
            "Business Plan",
            "Financial Projections",
            "Existing Business Financial Statements",
            "Partnership Deed (if applicable)" ]) ]),
    ("Education",
      [ ("Salaried",
          [ "Salary Slip (Last 3 months)",
            "Bank Statement (Last 6 months)",
            "Form 16 / IT Returns",
            "Identity Proof (Aadhar/PAN)",
            "Address Proof",
            "Admission Letter",
            "Fee Structure",
            "Academic Records" ]),
        ("Self-employed",
          [ "ITR (Last 2 years)",
            "Bank Statement (Last 12 months)",
            "Business License",
            "Identity Proof (Aadhar/PAN)",
            "Address Proof",
            "Admission Letter",
            "Fee Structure",
            "Academic Records",
            "Business Financial Statements" ]) ]),
    ("Personal",
      [ ("Salaried",
          [ "Salary Slip (Last 3 months)",
            "Bank Statement (Last 6 months)",
            "Form 16 / IT Returns",
            "Identity Proof (Aadhar/PAN)",
            "Address Proof" ]),
        ("Self-employed",
          [ "ITR (Last 2 years)",
            "Bank Statement (Last 12 months)",
            "GST Returns (if applicable)",
            "Business License",
            "Identity Proof (Aadhar/PAN)",
            "Address Proof",
            "Business Financial Statements" ]) ]),
    ("Vehicle",
      [ ("Salaried",
          [ "Salary Slip (Last 3 months)",
            "Bank Statement (Last 6 months)",
            "Form 16 / IT Returns",
            "Identity Proof (Aadhar/PAN)",
            "Address Proof",
            "Vehicle Quotation",
            "Driving License" ]),
        ("Self-employed",
          [ "ITR (Last 2 years)",
            "Bank Statement (Last 12 months)",
            "Business License",
            "Identity Proof (Aadhar/PAN)",
            "Address Proof",
            "Vehicle Quotation",
            "Driving License",
            "Business Financial Statements" ]) ]) ]

/-- The curated per-document descriptions
(`DocumentRequirements.documentDescriptions`). -/
def documentDescriptions : List (String × String) :=
  [ ("Salary Slip (Last 3 months)",
     "Upload your salary slips for the last 3 months"),
    ("Bank Statement (Last 6 months)",
     "Upload bank statements for the last 6 months"),
    ("Bank Statement (Last 12 months)",
     "Upload bank statements for the last 12 months"),
    ("Form 16 / IT Returns",
     "Upload your Form 16 or Income Tax Returns"),
    ("ITR (Last 2 years)",
     "Upload Income Tax Returns for the last 2 years"),
    ("ITR (Last 3 years)",
     "Upload Income Tax Returns for the last 3 years"),
    ("Identity Proof (Aadhar/PAN)",
     "Upload Aadhar Card or PAN Card"),
    ("Address Proof",
     "Upload address proof (Utility bill, Rent agreement, etc.)"),
    ("GST Returns (Last 12 months)",
     "Upload GST returns for the last 12 months"),
    ("Business License",
     "Upload your business registration/license document"),
    ("Property Documents",
     "Upload property-related documents (Sale deed, Agreement, etc.)"),
    ("NOC from Builder",
     "Upload No Objection Certificate from the builder"),
    ("Business Plan",
     "Upload your detailed business plan"),
    ("Project Report",
     "Upload project report with financial details"),
    ("Financial Projections",
     "Upload financial projections for your business"),
    ("Business Financial Statements",
     "Upload profit & loss, balance sheet for your business"),
    ("Partnership Deed (if applicable)",
     "Upload partnership deed if business is a partnership"),
    ("Admission Letter",
     "Upload admission letter from educational institution"),
    ("Fee Structure",
     "Upload fee structure from the institution"),
    ("Academic Records",
     "Upload previous academic records/transcripts"),
    ("Vehicle Quotation",
     "Upload vehicle quotation from dealer"),
    ("Driving License",
     "Upload your valid driving license") ]

/-- The loan-type keys (`Object.keys(this.requirements)`), in object
insertion order. -/
def loanTypeKeys : List String := requirements.map (·.1)

/-- Model of `DocumentRequirements.normalizeLoanType`
(`services/documentRequirements.js`, lines 263-283).  The empty string
models the JS falsy guard `if (!loanType) return null`. -/
def normalizeLoanType (loanType : String) : Option String :=
  if loanType = "" then none
  else
    let normalized := strTrim loanType
    let lowerCase := strToLower normalized
    match loanTypeKeys.find? (fun key => strToLower key == lowerCase) with
    | some directMatch => some directMatch
    | none =>
        if strIncludes lowerCase "home" || strIncludes lowerCase "housing" then
          some "Home"
        else if strIncludes lowerCase "business" then some "Business"
        else if strIncludes lowerCase "education" ||
                strIncludes lowerCase "study" then some "Education"
        else if strIncludes lowerCase "personal" then some "Personal"
        else if strIncludes lowerCase "vehicle" ||
                strIncludes lowerCase "car" ||
                strIncludes lowerCase "bike" then some "Vehicle"
        else none

/-- Model of `DocumentRequirements.normalizeEmploymentType`
(`services/documentRequirements.js`, lines 290-304). -/
def normalizeEmploymentType (employmentType : String) : Option String :=
  if employmentType = "" then none
  else
    let lowerCase := strToLower (strTrim employmentType)
    if strIncludes lowerCase "salaried" || strIncludes lowerCase "employee" ||
       strIncludes lowerCase "job" then
      some "Salaried"
    else if strIncludes lowerCase "self" || strIncludes lowerCase "business" ||
            strIncludes lowerCase "freelance" then
      some "Self-employed"
    else none

/-- Model of `DocumentRequirements.getRequiredDocuments`
(`services/documentRequirements.js`, lines 195-219): normalizes both
inputs, then reads the matrix. -/
def getRequiredDocuments (loanType employmentType : String) :
    Option (List String) :=
  match normalizeLoanType loanType, normalizeEmploymentType employmentType with
  | some nl, some ne =>
      match requirements.lookup nl with
      | none => none
      | some byEmployment => byEmployment.lookup ne
  | _, _ => none

/-- Model of `DocumentRequirements.getDocumentDescription`
(`services/documentRequirements.js`, lines 226-228): curated description,
or the generic fallback. -/
def getDocumentDescription (documentType : String) : String :=
  match documentDescriptions.lookup documentType with
  | some description => description
  | none => "Upload your " ++ documentType

/-- Model of `DocumentRequirements.isValidLoanType`. -/
def isValidLoanType (loanType : String) : Bool :=
  match normalizeLoanType loanType with
  | some normalized => loanTypeKeys.contains normalized
  | none => false

/-- Model of `DocumentRequirements.isValidEmploymentType`. -/
def isValidEmploymentType (employmentType : String) : Bool :=
  match normalizeEmploymentType employmentType with
  | some normalized => ["Salaried", "Self-employed"].contains normalized
  | none => false

/-! ## Conversation state machine (`controllers/webhookController.js`)

Outbound side effects are collected in order as `Event`s; the fallible
collaborators (`whatsappService.downloadMedia`, `fileHandler.saveFile`,
`fileHandler.createUserZip`, `emailService.sendDocumentPackage`) are
supplied as `Except` outcomes in an `Env`. -/

/-- Outbound effects of a handler, in emission order. -/
inductive Event where
  | send (text : String)
  | sendList (body : String)
  | sendButtons (body : String)
  | package
  | forward
  | scheduleZipDelete
deriving Repr, DecidableEq

/-- Result of `fileHandler.createUserZip` (the fields the controller
reads). -/
structure ZipInfo where
  filePath : String
  fileSize : Nat
deriving Repr, DecidableEq

/-- Outcomes of the fallible collaborators for one handler run. -/
structure Env where
  downloadResult : Except String Unit
  saveResult : Except String UploadRecord
  zipResult : Except String ZipInfo
  emailResult : Except String Unit
deriving Repr

/-- An environment in which every collaborator succeeds. -/
def Env.allOk (env : Env) : Prop :=
  (∃ u, env.downloadResult = Except.ok u) ∧
  (∃ r, env.saveResult = Except.ok r) ∧
  (∃ z, env.zipResult = Except.ok z) ∧
  (∃ e, env.emailResult = Except.ok e)

/-- Media payload of an inbound WhatsApp message. -/
structure MediaInfo where
  mediaId : String
  filename : Option String
  mimeType : Option String
deriving Repr, DecidableEq

/-- Inbound WhatsApp message (the fields the controller reads). -/
structure WaMessage where
  msgType : String
  textBody : Option String
  listReplyTitle : Option String
  buttonReplyTitle : Option String
  document : Option MediaInfo
  image : Option MediaInfo
deriving Repr, DecidableEq

/-- JS template-literal rendering of a nullable string (`null` prints as
the text "null"). -/
def jsShow : Option String → String
  | some s => s
  | none => "null"

/-- JS `list.map((doc, index) => (index + 1) + ". " + doc).join("\n")`. -/
def numberedLines (docs : List String) : String :=
  String.intercalate "\n"
    (docs.enum.map (fun p => toString (p.1 + 1) ++ ". " ++ p.2))

/-- Generic error reply of `completeDocumentCollection`s catch block. -/
def terminalErrorMsg : String :=
  "❌ There was an error processing your application. Our team has been notified and will contact you shortly."

/-- Completion summary sent on a successful terminal sequence (byte sizes
are rendered as plain decimal, abstracting the floating-point
`formatFileSize` helper). -/
def completionMessage (s : Session) (zipSize : Nat) : String :=
  "✅ *All documents received successfully!*\n\n📊 *Application Summary:*\n• Loan Type: " ++
  jsShow s.loanType ++ " Loan\n• Employment: " ++ jsShow s.employmentType ++
  "\n• Documents: " ++ toString s.uploadedDocuments.length ++
  " files uploaded\n• Package Size: " ++ toString zipSize ++
  "\n\n📧 Your documents have been forwarded to our loan experts for review.\n\n🎯 *Next Steps:*\n• Our team will review your application within 24-48 hours\n• You\x27ll receive a call for any additional information needed\n• Loan approval decision will be communicated within 3-5 business days\n\n📞 *Need assistance?* Contact our support team at: +91-XXXXXXXXXX\n\nThank you for choosing our loan services! 🏦"

/-- Model of `webhookController.completeDocumentCollection`
(`controllers/webhookController.js`, lines 413-474): package, forward,
schedule zip deletion, notify, and only then flip the state to COMPLETED;
any thrown error lands in the catch block, which only sends the generic
error reply. -/
def completeDocumentCollection (env : Env) (now : Int) (s : Session) :
    Session × List Event :=
  let ev0 := [Event.send "📦 Creating document package...", Event.package]
  match env.zipResult with
  | Except.error _ => (s, ev0 ++ [Event.send terminalErrorMsg])
  | Except.ok zipInfo =>
      match env.emailResult with
      | Except.error _ =>
          (s, ev0 ++ [Event.forward, Event.send terminalErrorMsg])
      | Except.ok _ =>
          (setState now "COMPLETED" s,
           ev0 ++ [Event.forward, Event.scheduleZipDelete,
                   Event.send (completionMessage s zipInfo.fileSize)])

/-- Per-item prompt of `requestNextDocument`. -/
def requestMessage (s : Session) (currentDocument : String) : String :=
  "📋 Document " ++ toString (s.uploadedDocuments.length + 1) ++ " of " ++
  toString s.requiredDocuments.length ++ "\n\n📄 *" ++ currentDocument ++
  "*\n\n" ++ getDocumentDescription currentDocument ++
  "\n\n📎 Please upload this document as a file (PDF, image, or Word document).\n\nProgress: " ++
  toString s.uploadedDocuments.length ++ "/" ++
  toString s.requiredDocuments.length ++ " ✅"

/-- Model of `webhookController.requestNextDocument`
(`controllers/webhookController.js`, lines 383-407): prompt for the
current item, or run the terminal sequence when none is left. -/
def requestNextDocument (env : Env) (now : Int) (s : Session) :
    Session × List Event :=
  match getCurrentRequiredDocument s with
  | none => completeDocumentCollection env now s
  | some currentDocument => (s, [Event.send (requestMessage s currentDocument)])

/-- Model of `webhookController.skipCurrentDocument`
(`controllers/webhookController.js`, lines 526-545). -/
def skipCurrentDocument (env : Env) (now : Int) (s : Session) :
    Session × List Event :=
  match getCurrentRequiredDocument s with
  | none => (s, [Event.send "No document to skip."])
  | some currentDocument =>
      let s1 := nextDocument now s
      let ev0 := [Event.send ("⏭️ Skipped: " ++ currentDocument)]
      if isDocumentCollectionComplete s1 then
        let r := completeDocumentCollection env now s1
        (r.1, ev0 ++ r.2)
      else
        let r := requestNextDocument env now s1
        (r.1, ev0 ++ r.2)

/-- Progress reply of `sendProgressStatus`. -/
def statusMessage (s : Session) : String :=
  let remaining := getRemainingDocuments s
  "📊 *Application Progress*\n\n✅ Uploaded: " ++
  toString s.uploadedDocuments.length ++ "/" ++
  toString s.requiredDocuments.length ++ " documents\n📋 Remaining: " ++
  toString remaining.length ++ " documents\n\n" ++
  (if remaining.length > 0 then
    "*Next documents needed:*\n" ++ numberedLines (remaining.take 3)
  else "🎉 All documents collected!")

/-- Model of `webhookController.sendProgressStatus`
(`controllers/webhookController.js`, lines 551-568). -/
def sendProgressStatus (s : Session) : Session × List Event :=
  (s, [Event.send (statusMessage s)])

/-- Retry reply of `processMediaUpload`s catch block. -/
def uploadErrorMsg : String :=
  "❌ Sorry, there was an error processing your document. Please try uploading again."

/-- Confirmation sent after a successful save (byte sizes rendered as
plain decimal, abstracting `formatFileSize`). -/
def uploadSuccessMsg (currentDocument fileName : String) (size : Nat) :
    String :=
  "✅ Document uploaded successfully!\n\n📄 *" ++ currentDocument ++
  "*\n📁 File: " ++ fileName ++ "\n📊 Size: " ++ toString size

/-- Model of `webhookController.processMediaUpload`
(`controllers/webhookController.js`, lines 310-377).  With no current
required document it announces completion and re-runs the terminal
sequence; otherwise it downloads, saves, records the upload, advances the
cursor and either finishes or prompts for the next item.  A download or
save failure falls into the catch block: retry reply, session untouched. -/
def processMediaUpload (env : Env) (now : Int) (s : Session)
    (m : WaMessage) : Session × List Event :=
  match getCurrentRequiredDocument s with
  | none =>
      let r := completeDocumentCollection env now s
      (r.1, Event.send "✅ All documents have been collected! Processing your application..." :: r.2)
  | some currentDocument =>
      let ev0 := [Event.send "⏳ Processing your document..."]
      let fileName :=
        if m.msgType == "document" then
          (m.document.bind (·.filename)).getD "document"
        else "image.jpg"
      match env.downloadResult with
      | Except.error _ => (s, ev0 ++ [Event.send uploadErrorMsg])
      | Except.ok _ =>
          match env.saveResult with
          | Except.error _ => (s, ev0 ++ [Event.send uploadErrorMsg])
          | Except.ok fileInfo =>
              let s1 := nextDocument now (addUploadedDocument now fileInfo s)
              let ev1 := ev0 ++
                [Event.send (uploadSuccessMsg currentDocument fileName fileInfo.fileSize)]
              if isDocumentCollectionComplete s1 then
                let r := completeDocumentCollection env now s1
                (r.1, ev1 ++
                  Event.send "🎉 All documents collected! Processing your application..." :: r.2)
              else
                let r := requestNextDocument env now s1
                (r.1, ev1 ++ r.2)

/-- Welcome text of `handleInitialMessage`. -/
def welcomeMessage : String :=
  "🏦 Welcome to our Loan Application Bot!\n\nI\x27ll help you submit your loan documents quickly and securely.\n\nLet\x27s start by selecting the type of loan you\x27re interested in:"

/-- Model of `webhookController.handleInitialMessage`
(`controllers/webhookController.js`, lines 131-162): welcome text, the
loan-type list prompt, and the move to WAITING_LOAN_TYPE.  The inbound
message is never read. -/
def handleInitialMessage (now : Int) (s : Session) : Session × List Event :=
  (setState now "WAITING_LOAN_TYPE" s,
   [Event.send welcomeMessage,
    Event.sendList "Please select your loan type from the list below:"])

/-- Model of `webhookController.handleLoanTypeSelection`
(`controllers/webhookController.js`, lines 169-210): reads the list reply
or the trimmed text, validates it against the catalog, stores the loan
type and moves to WAITING_EMPLOYMENT_TYPE, or re-prompts leaving the
session as it was. -/
def handleLoanTypeSelection (now : Int) (s : Session) (m : WaMessage) :
    Session × List Event :=
  let selectedLoanType : Option String :=
    match m.listReplyTitle with
    | some title => some title
    | none => m.textBody.map strTrim
  match selectedLoanType with
  | none =>
      (s, [Event.send "❌ Please select a valid loan type from the list above."])
  | some lt =>
      if lt == "" || ! isValidLoanType lt then
        (s, [Event.send "❌ Please select a valid loan type from the list above."])
      else
        (setState now "WAITING_EMPLOYMENT_TYPE"
           (setLoanDetails now (some lt) none s),
         [Event.send ("Great! You\x27ve selected: *" ++ lt ++
            " Loan*\n\nNow, please tell me about your employment status:"),
          Event.sendButtons "Are you a salaried employee or self-employed?"])

/-- Checklist summary of `handleEmploymentTypeSelection`. -/
def summaryMessage (loanType : Option String) (employmentType : String)
    (docs : List String) : String :=
  "Perfect! For a *" ++ jsShow loanType ++ " Loan* as a *" ++
  employmentType ++
  "*, you\x27ll need to upload the following documents:\n\n" ++
  numberedLines docs ++
  "\n\n📤 I\x27ll ask you to upload each document one by one. Please make sure your documents are clear and readable.\n\nLet\x27s start! 👇"

/-- Model of `webhookController.handleEmploymentTypeSelection`
(`controllers/webhookController.js`, lines 217-268): validates the
employment reply, stores it, derives the checklist from the catalog
(resetting on a missing or empty list), announces it, moves to
COLLECTING_DOCUMENTS and prompts for the first item. -/
def handleEmploymentTypeSelection (env : Env) (now : Int) (s : Session)
    (m : WaMessage) : Session × List Event :=
  let selectedEmploymentType : Option String :=
    match m.buttonReplyTitle with
    | some title => some title
    | none => m.textBody.map strTrim
  match selectedEmploymentType with
  | none =>
      (s, [Event.send "❌ Please select a valid employment type using the buttons above."])
  | some et =>
      if et == "" || ! isValidEmploymentType et then
        (s, [Event.send "❌ Please select a valid employment type using the buttons above."])
      else
        let s1 := setLoanDetails now s.loanType (some et) s
        match getRequiredDocuments ((s.loanType).getD "") et with
        | none =>
            (resetSession s.phoneNumber now,
             [Event.send "❌ Sorry, I couldn\x27t determine the required documents. Please try again."])
        | some requiredDocuments =>
            if requiredDocuments.isEmpty then
              (resetSession s.phoneNumber now,
               [Event.send "❌ Sorry, I couldn\x27t determine the required documents. Please try again."])
            else
              let s2 := setState now "COLLECTING_DOCUMENTS"
                (setRequiredDocuments now requiredDocuments s1)
              let r := requestNextDocument env now s2
              (r.1,
               Event.send (summaryMessage s.loanType et requiredDocuments) :: r.2)

/-- Model of `webhookController.restartProcess`
(`controllers/webhookController.js`, lines 574-582): reset, then re-enter
the INITIAL handler on the fresh session. -/
def restartProcess (now : Int) (s : Session) : Session × List Event :=
  let fresh := resetSession s.phoneNumber now
  let r := handleInitialMessage now fresh
  (r.1, Event.send "🔄 Restarting your loan application..." :: r.2)

/-- Prompt shown in COLLECTING_DOCUMENTS for unrecognized text. -/
def uploadPromptMsg : String :=
  "📎 Please upload a document file (PDF, image, or Word document).\n\nYou can also type:\n• \x27skip\x27 to skip current document\n• \x27status\x27 to see progress\n• \x27restart\x27 to start over"

/-- Model of `webhookController.handleDocumentUpload`
(`controllers/webhookController.js`, lines 275-303): media goes to
`processMediaUpload`; the lower-cased, trimmed text is matched against
the skip / status / restart commands; anything else is re-prompted. -/
def handleDocumentUpload (env : Env) (now : Int) (s : Session)
    (m : WaMessage) : Session × List Event :=
  if m.msgType == "document" || m.msgType == "image" then
    processMediaUpload env now s m
  else
    match m.textBody with
    | some body =>
        let text := strTrim (strToLower body)
        if text == "skip" || text == "next" then
          skipCurrentDocument env now s
        else if text == "status" || text == "progress" then
          sendProgressStatus s
        else if text == "restart" || text == "reset" then
          restartProcess now s
        else (s, [Event.send uploadPromptMsg])
    | none =>
        (s, [Event.send "📎 Please upload a document file (PDF, image, or Word document)."])

/-- Model of `webhookController.handleCompletedState`
(`controllers/webhookController.js`, lines 481-503): text containing
new / start / another restarts; text containing status / progress gets
the static review summary; other text gets the completed hint; non-text
input is ignored. -/
def handleCompletedState (now : Int) (s : Session) (m : WaMessage) :
    Session × List Event :=
  match m.textBody with
  | some body =>
      let text := strTrim (strToLower body)
      if strIncludes text "new" || strIncludes text "start" ||
         strIncludes text "another" then
        let fresh := resetSession s.phoneNumber now
        let r := handleInitialMessage now fresh
        (r.1, Event.send "🆕 Starting a new loan application..." :: r.2)
      else if strIncludes text "status" || strIncludes text "progress" then
        (s, [Event.send ("✅ Your " ++ jsShow s.loanType ++
          " loan application is completed and under review.\n\nOur team will contact you within 24-48 hours.\n\n📞 Support: +91-XXXXXXXXXX")])
      else
        (s, [Event.send "✅ Your application is complete and under review.\n\nType \x27new\x27 to start another application or \x27status\x27 to check your current application status."])
  | none => (s, [])

/-- Model of `webhookController.handleUnknownState`
(`controllers/webhookController.js`, lines 510-520): self-healing —
notify, reset, re-enter the INITIAL handler. -/
def handleUnknownState (now : Int) (s : Session) : Session × List Event :=
  let fresh := resetSession s.phoneNumber now
  let r := handleInitialMessage now fresh
  (r.1, Event.send "🔄 Something went wrong. Let me restart our conversation." :: r.2)

/-- Model of `webhookController.routeMessage`
(`controllers/webhookController.js`, lines 87-124): dispatch on the
session state string. -/
def routeMessage (env : Env) (now : Int) (s : Session) (m : WaMessage) :
    Session × List Event :=
  if s.state == "INITIAL" then handleInitialMessage now s
  else if s.state == "WAITING_LOAN_TYPE" then handleLoanTypeSelection now s m
  else if s.state == "WAITING_EMPLOYMENT_TYPE" then
    handleEmploymentTypeSelection env now s m
  else if s.state == "COLLECTING_DOCUMENTS" then
    handleDocumentUpload env now s m
  else if s.state == "COMPLETED" then handleCompletedState now s m
  else handleUnknownState now s

/-! ## Helpers for stating the properties -/

/-- Predicate picking out packaging-collaborator invocations. -/
def isPackageEv : Event → Bool
  | Event.package => true
  | _ => false

/-- Number of packaging-collaborator invocations in an event trace. -/
def countPackage (evs : List Event) : Nat := evs.countP isPackageEv

/-- Predicate picking out forwarding-collaborator invocations. -/
def isForwardEv : Event → Bool
  | Event.forward => true
  | _ => false

/-- Number of forwarding-collaborator invocations in an event trace. -/
def countForward (evs : List Event) : Nat := evs.countP isForwardEv

/-- A "skip" text message as delivered by the webhook. -/
def skipCommand : WaMessage :=
  { msgType := "text", textBody := some "skip", listReplyTitle := none,
    buttonReplyTitle := none, document := none, image := none }

/-- Iterated processing of consecutive inbound "skip" commands through the
state router. -/
def runSkips (env : Env) (now : Int) : Nat → Session → Session × List Event
  | 0, s => (s, [])
  | n + 1, s =>
      let r := routeMessage env now s skipCommand
      let r2 := runSkips env now n r.1
      (r2.1, r.2 ++ r2.2)

/-- A successfully saved file record, for concrete runs. -/
def sampleFile : UploadRecord :=
  { documentType := "doc", fileName := "f.pdf", fileSize := 10, uploadedAt := 0 }

/-- Environment in which every collaborator succeeds. -/
def okEnv : Env :=
  { downloadResult := Except.ok (), saveResult := Except.ok sampleFile,
    zipResult := Except.ok { filePath := "/tmp/u.zip", fileSize := 99 },
    emailResult := Except.ok () }

/-- Environment in which packaging (zip creation) throws. -/
def badZipEnv : Env :=
  { okEnv with zipResult := Except.error "zip failed" }

/-- Environment in which the media download throws. -/
def badDownloadEnv : Env :=
  { okEnv with downloadResult := Except.error "download failed" }

/-- An inbound document-attachment message. -/
def sampleDocMessage : WaMessage :=
  { msgType := "document", textBody := none, listReplyTitle := none,
    buttonReplyTitle := none,
    document := some { mediaId := "m1", filename := some "f.pdf",
                       mimeType := some "application/pdf" },
    image := none }

/-- Membership from a successful association-list lookup. -/
theorem lookup_mem {l : List (String × String)} {a b : String}
    (h : l.lookup a = some b) : (a, b) ∈ l := by
  induction l with
  | nil => simp [List.lookup] at h
  | cons hd tl ih =>
      rw [List.lookup] at h
      cases hab : (a == hd.1) with
      | true =>
          rw [hab] at h
          simp at h
          have ha : a = hd.1 := by simpa using hab
          have : (a, b) = hd := by
            cases hd
            simp at ha h ⊢
            exact ⟨ha, h.symm⟩
          rw [this]
          exact List.mem_cons_self _ _
      | false =>
          rw [hab] at h
          simp at h
          exact List.mem_cons_of_mem _ (ih h)

/-! ## Claims -/

/-- A session whose cursor is past the end of a one-item checklist with no
upload records (reachable by one skip). -/
def cursorPastEndSession : Session :=
  { createSession "15550001111" 0 with
      state := "COLLECTING_DOCUMENTS",
      loanType := some "Home", employmentType := some "Salaried",
      requiredDocuments := ["Address Proof"], currentDocumentIndex := 1 }

/-- C1 (counterexample): the completion check is NOT equivalent to
`cursor >= requiredItems.length` — with the cursor past the end of a
one-item checklist and no uploads, the check still returns false. -/
theorem completion_check_cursor_claim_false :
    ¬ (isDocumentCollectionComplete cursorPastEndSession = true ↔
        cursorPastEndSession.currentDocumentIndex ≥
          cursorPastEndSession.requiredDocuments.length) := by
  decide

/-- C1 (amended): the session store\x27s completion check returns true if and
only if at least as many upload records exist as required items
(`uploadedItems.length >= requiredItems.length`), independently of the
cursor position. -/
theorem completion_check_counts_uploads (s : Session) (c : Nat) :
    (isDocumentCollectionComplete s = true ↔
      s.uploadedDocuments.length ≥ s.requiredDocuments.length) ∧
    isDocumentCollectionComplete { s with currentDocumentIndex := c } =
      isDocumentCollectionComplete s := by
  constructor
  · simp [isDocumentCollectionComplete]
  · rfl

/-- C10: a freshly created session (empty checklist, cursor 0, no uploads)
has no current required document and already counts as complete at the
public interface. -/
theorem fresh_session_interface_complete (phoneNumber : String) (now : Int) :
    getCurrentRequiredDocument (createSession phoneNumber now) = none ∧
    isDocumentCollectionComplete (createSession phoneNumber now) = true := by
  constructor
  · rfl
  · rfl

/-- C7: the expiry sweep keeps exactly the sessions whose idle time does
not exceed the timeout, each retained entry unchanged, and never adds or
reorders entries. -/
theorem cleanup_expired_sessions_spec (now : Int)
    (sessions : List (String × Session)) (id : String) (s : Session) :
    ((id, s) ∈ cleanupExpiredSessions now sessions ↔
      ((id, s) ∈ sessions ∧ ¬ (now - s.lastActivity > sessionTimeout))) ∧
    (cleanupExpiredSessions now sessions).Sublist sessions := by
  constructor
  · simp [cleanupExpiredSessions, List.mem_filter]
  · exact List.filter_sublist sessions

/-- C8: every (loan type, employment type) pair present in the
requirement matrix yields its non-empty ordered document list through
`getRequiredDocuments` (the normalizers accept the exact keys), and the
description lookup is total: never empty, with the generic fallback
whenever no curated entry exists. -/
theorem catalog_total_nonempty :
    (∀ p ∈ requirements, ∀ q ∈ p.2,
      getRequiredDocuments p.1 q.1 = some q.2 ∧ q.2 ≠ []) ∧
    (∀ documentType : String,
      getDocumentDescription documentType ≠ "" ∧
      (documentDescriptions.lookup documentType = none →
        getDocumentDescription documentType = "Upload your " ++ documentType)) := by
  constructor
  · decide
  · intro documentType
    constructor
    · unfold getDocumentDescription
      cases hl : documentDescriptions.lookup documentType with
      | none =>
          intro h
          have hlen := congrArg String.length h
          rw [String.length_append] at hlen
          have h12 : ("Upload your " : String).length = 12 := rfl
          have h0 : ("" : String).length = 0 := rfl
          omega
      | some d =>
          have hmem := lookup_mem hl
          have hall : ∀ p ∈ documentDescriptions, p.2 ≠ "" := by decide
          exact hall _ hmem
    · intro hl
      unfold getDocumentDescription
      rw [hl]

/-- C8 witness: the theorem applied to the Home / Salaried pair of the
matrix and to an uncurated document name. -/
theorem catalog_total_nonempty_witness :
    getRequiredDocuments "Home" "Salaried" =
      some [ "Salary Slip (Last 3 months)",
             "Bank Statement (Last 6 months)",
             "Form 16 / IT Returns",
             "Identity Proof (Aadhar/PAN)",
             "Address Proof",
             "Property Documents",
             "NOC from Builder" ] ∧
    getDocumentDescription "Ration Card" = "Upload your Ration Card" := by
  constructor
  · have h := catalog_total_nonempty.1 (requirements.get ⟨0, by decide⟩)
      (requirements.get_mem 0 (by decide))
      ((requirements.get ⟨0, by decide⟩).2.get ⟨0, by decide⟩)
      (List.get_mem _ 0 (by decide))
    exact h.1
  · exact (catalog_total_nonempty.2 "Ration Card").2 (by decide)

/-- C9: the free-text normalizers map "I work for myself" to the
Self-employed key and "bike loan please" to the Vehicle key, and each
returns none whenever neither the exact (case-insensitive) key match nor
any of its substring rules fires. -/
theorem normalizers_spec :
    normalizeEmploymentType "I work for myself" = some "Self-employed" ∧
    normalizeLoanType "bike loan please" = some "Vehicle" ∧
    (∀ t : String,
      loanTypeKeys.find? (fun key => strToLower key == strToLower (strTrim t)) = none →
      strIncludes (strToLower (strTrim t)) "home" = false →
      strIncludes (strToLower (strTrim t)) "housing" = false →
      strIncludes (strToLower (strTrim t)) "business" = false →
      strIncludes (strToLower (strTrim t)) "education" = false →
      strIncludes (strToLower (strTrim t)) "study" = false →
      strIncludes (strToLower (strTrim t)) "personal" = false →
      strIncludes (strToLower (strTrim t)) "vehicle" = false →
      strIncludes (strToLower (strTrim t)) "car" = false →
      strIncludes (strToLower (strTrim t)) "bike" = false →
      normalizeLoanType t = none) ∧
    (∀ t : String,
      strIncludes (strToLower (strTrim t)) "salaried" = false →
      strIncludes (strToLower (strTrim t)) "employee" = false →
      strIncludes (strToLower (strTrim t)) "job" = false →
      strIncludes (strToLower (strTrim t)) "self" = false →
      strIncludes (strToLower (strTrim t)) "business" = false →
      strIncludes (strToLower (strTrim t)) "freelance" = false →
      normalizeEmploymentType t = none) := by
  refine ⟨by decide, by decide, ?_, ?_⟩
  · intro t hfind h1 h2 h3 h4 h5 h6 h7 h8 h9
    by_cases ht : t = ""
    · simp [normalizeLoanType, ht]
    · simp [normalizeLoanType, ht, hfind, h1, h2, h3, h4, h5, h6, h7, h8, h9]
  · intro t h1 h2 h3 h4 h5 h6
    by_cases ht : t = ""
    · simp [normalizeEmploymentType, ht]
    · simp [normalizeEmploymentType, ht, h1, h2, h3, h4, h5, h6]

/-- C9 witness: the theorem applied to the concrete inputs, with the
no-match branches instantiated at "purple". -/
theorem normalizers_spec_witness :
    normalizeEmploymentType "I work for myself" = some "Self-employed" ∧
    normalizeLoanType "bike loan please" = some "Vehicle" ∧
    normalizeLoanType "purple" = none ∧
    normalizeEmploymentType "purple" = none := by
  refine ⟨normalizers_spec.1, normalizers_spec.2.1, ?_, ?_⟩
  · exact normalizers_spec.2.2.1 "purple" (by decide) (by decide) (by decide)
      (by decide) (by decide) (by decide) (by decide) (by decide) (by decide)
      (by decide)
  · exact normalizers_spec.2.2.2 "purple" (by decide) (by decide) (by decide)
      (by decide) (by decide) (by decide)

/-- C6: when a current required item exists and the media download or the
file save throws, the handler replies with the retry prompt and the
session is returned untouched — no cursor advance, no upload record. -/
theorem upload_failure_retry_same_item (env : Env) (now : Int) (s : Session)
    (m : WaMessage) (d : String)
    (hcur : getCurrentRequiredDocument s = some d)
    (hfail : (∃ e, env.downloadResult = Except.error e) ∨
             ((∃ u, env.downloadResult = Except.ok u) ∧
              (∃ e, env.saveResult = Except.error e))) :
    (processMediaUpload env now s m).1 = s ∧
    (processMediaUpload env now s m).2 =
      [Event.send "⏳ Processing your document...", Event.send uploadErrorMsg] := by
  have hrun : processMediaUpload env now s m =
      (s, [Event.send "⏳ Processing your document...", Event.send uploadErrorMsg]) := by
    unfold processMediaUpload
    rw [hcur]
    rcases hfail with ⟨e, he⟩ | ⟨⟨u, hu⟩, ⟨e, he⟩⟩
    · rw [he]
      rfl
    · rw [hu, he]
      rfl
  rw [hrun]
  exact ⟨rfl, rfl⟩

/-- C6 witness: the theorem at a concrete two-item session and a failing
download. -/
theorem upload_failure_retry_same_item_witness :
    (processMediaUpload badDownloadEnv 5
        { createSession "15550001111" 0 with
            state := "COLLECTING_DOCUMENTS",
            requiredDocuments := ["A", "B"] } sampleDocMessage).1 =
      { createSession "15550001111" 0 with
          state := "COLLECTING_DOCUMENTS",
          requiredDocuments := ["A", "B"] } := by
  exact (upload_failure_retry_same_item badDownloadEnv 5
    { createSession "15550001111" 0 with
        state := "COLLECTING_DOCUMENTS", requiredDocuments := ["A", "B"] }
    sampleDocMessage "A" (by decide)
    (Or.inl ⟨"download failed", rfl⟩)).1

/-- C4 (counterexample): when packaging throws, the catch block only sends
the generic error reply — the session state is NOT advanced to COMPLETED
(the `setState` call sits after the failing collaborators inside the try
block). -/
theorem terminal_failure_claim_false :
    (completeDocumentCollection badZipEnv 5 cursorPastEndSession).1.state =
      "COLLECTING_DOCUMENTS" ∧
    (completeDocumentCollection badZipEnv 5 cursorPastEndSession).1.state ≠
      "COMPLETED" := by
  decide

/-- C4 (amended): when packaging or forwarding throws, the user receives
the generic error reply as the final message and nothing is retried
(exactly one packaging attempt, at most one forwarding attempt), but the
session is returned unchanged — its state is NOT advanced to COMPLETED. -/
theorem terminal_failure_behavior (env : Env) (now : Int) (s : Session)
    (hfail : (∃ e, env.zipResult = Except.error e) ∨
             ((∃ z, env.zipResult = Except.ok z) ∧
              (∃ e, env.emailResult = Except.error e))) :
    (completeDocumentCollection env now s).1 = s ∧
    (completeDocumentCollection env now s).2.getLast? =
      some (Event.send terminalErrorMsg) ∧
    countPackage (completeDocumentCollection env now s).2 = 1 ∧
    countForward (completeDocumentCollection env now s).2 ≤ 1 := by
  rcases hfail with ⟨e, he⟩ | ⟨⟨z, hz⟩, ⟨e, he⟩⟩
  · have hrun : completeDocumentCollection env now s =
        (s, [Event.send "📦 Creating document package...", Event.package,
             Event.send terminalErrorMsg]) := by
      unfold completeDocumentCollection
      rw [he]
      rfl
    rw [hrun]
    refine ⟨rfl, rfl, rfl, ?_⟩
    show countForward [Event.send "📦 Creating document package...",
      Event.package, Event.send terminalErrorMsg] ≤ 1
    decide
  · have hrun : completeDocumentCollection env now s =
        (s, [Event.send "📦 Creating document package...", Event.package,
             Event.forward, Event.send terminalErrorMsg]) := by
      unfold completeDocumentCollection
      rw [hz, he]
      rfl
    rw [hrun]
    refine ⟨rfl, rfl, rfl, ?_⟩
    show countForward [Event.send "📦 Creating document package...",
      Event.package, Event.forward, Event.send terminalErrorMsg] ≤ 1
    decide

/-- C4 witness: the amended theorem at a failing packaging collaborator
and a concrete session. -/
theorem terminal_failure_behavior_witness :
    (completeDocumentCollection badZipEnv 5 cursorPastEndSession).1 =
      cursorPastEndSession ∧
    countPackage (completeDocumentCollection badZipEnv 5 cursorPastEndSession).2 = 1 := by
  have h := terminal_failure_behavior badZipEnv 5 cursorPastEndSession
    (Or.inl ⟨"zip failed", rfl⟩)
  exact ⟨h.1, h.2.2.1⟩

/-- A session whose one-item checklist is fully uploaded (cursor past the
end) but whose state has not yet been flipped to COMPLETED — the window a
duplicate attachment event can land in. -/
def completedChecklistSession : Session :=
  { createSession "15550002222" 0 with
      state := "COLLECTING_DOCUMENTS",
      loanType := some "Home", employmentType := some "Salaried",
      requiredDocuments := ["Address Proof"],
      uploadedDocuments := [{ documentType := "Address Proof",
                              fileName := "a.pdf", fileSize := 7,
                              uploadedAt := 0 }],
      currentDocumentIndex := 1 }

/-- C3 (counterexample): an attachment event handled with no current
required item and the state still COLLECTING_DOCUMENTS does NOT
short-circuit — it invokes the packaging collaborator again. -/
theorem duplicate_attachment_claim_false :
    countPackage (processMediaUpload okEnv 5 completedChecklistSession
      sampleDocMessage).2 ≠ 0 := by
  decide

/-- C3 (amended): an attachment event handled while no current required
item exists and before the state flip announces "all documents have been
collected" and then re-runs the whole terminal sequence — the packaging
collaborator is invoked once more per such duplicate event (and the state
is then flipped to COMPLETED when the collaborators succeed). -/
theorem duplicate_attachment_reruns_terminal (env : Env) (now : Int)
    (s : Session) (m : WaMessage)
    (hcur : getCurrentRequiredDocument s = none)
    (hzip : ∃ z, env.zipResult = Except.ok z)
    (hmail : ∃ u, env.emailResult = Except.ok u) :
    (processMediaUpload env now s m).2.head? =
      some (Event.send "✅ All documents have been collected! Processing your application...") ∧
    countPackage (processMediaUpload env now s m).2 = 1 ∧
    (processMediaUpload env now s m).1 = setState now "COMPLETED" s := by
  obtain ⟨z, hz⟩ := hzip
  obtain ⟨u, he⟩ := hmail
  have hrun : processMediaUpload env now s m =
      (setState now "COMPLETED" s,
       [Event.send "✅ All documents have been collected! Processing your application...",
        Event.send "📦 Creating document package...", Event.package,
        Event.forward, Event.scheduleZipDelete,
        Event.send (completionMessage s z.fileSize)]) := by
    unfold processMediaUpload completeDocumentCollection
    rw [hcur, hz, he]
    rfl
  rw [hrun]
  exact ⟨rfl, rfl, rfl⟩

/-- C3 witness: the amended theorem at the concrete duplicate-attachment
scenario. -/
theorem duplicate_attachment_reruns_terminal_witness :
    countPackage (processMediaUpload okEnv 5 completedChecklistSession
      sampleDocMessage).2 = 1 ∧
    (processMediaUpload okEnv 5 completedChecklistSession
      sampleDocMessage).1 = setState 5 "COMPLETED" completedChecklistSession := by
  have h := duplicate_attachment_reruns_terminal okEnv 5
    completedChecklistSession sampleDocMessage (by decide)
    ⟨{ filePath := "/tmp/u.zip", fileSize := 99 }, rfl⟩ ⟨(), rfl⟩
  exact ⟨h.2.1, h.2.2⟩

/-- A current required document exists exactly when the cursor is inside
the checklist. -/
theorem getCurrentRequiredDocument_isSome (s : Session)
    (h : s.currentDocumentIndex < s.requiredDocuments.length) :
    ∃ d, getCurrentRequiredDocument s = some d := by
  unfold getCurrentRequiredDocument
  rw [if_neg (by omega)]
  exact ⟨_, List.get?_eq_get h⟩

/-- A skip that does not exhaust the checklist only advances the cursor
and never touches the packaging collaborator. -/
theorem skipCurrentDocument_mid (env : Env) (now : Int) (s : Session)
    (h1 : s.currentDocumentIndex + 1 < s.requiredDocuments.length)
    (h2 : s.uploadedDocuments.length < s.requiredDocuments.length) :
    (skipCurrentDocument env now s).1 = nextDocument now s ∧
    countPackage (skipCurrentDocument env now s).2 = 0 := by
  obtain ⟨d, hd⟩ := getCurrentRequiredDocument_isSome s (by omega)
  obtain ⟨d2, hd2⟩ := getCurrentRequiredDocument_isSome (nextDocument now s)
    (by simp only [nextDocument]; omega)
  have hcomp : isDocumentCollectionComplete (nextDocument now s) = false := by
    simp only [isDocumentCollectionComplete, nextDocument]
    simp only [decide_eq_false_iff_not]
    omega
  simp only [skipCurrentDocument, hd, hcomp, Bool.false_eq_true, if_false,
    requestNextDocument, hd2]
  exact ⟨trivial, rfl⟩

/-- The skip that moves the cursor past the last item runs the terminal
sequence exactly once (through the next-document prompt finding no
current item) even though the upload-counting completion check is still
false. -/
theorem skipCurrentDocument_last (env : Env) (now : Int) (s : Session)
    (hz : ∃ z, env.zipResult = Except.ok z)
    (he : ∃ u, env.emailResult = Except.ok u)
    (h1 : s.currentDocumentIndex + 1 = s.requiredDocuments.length)
    (h2 : s.uploadedDocuments.length < s.requiredDocuments.length) :
    (skipCurrentDocument env now s).1 =
      setState now "COMPLETED" (nextDocument now s) ∧
    countPackage (skipCurrentDocument env now s).2 = 1 := by
  obtain ⟨d, hd⟩ := getCurrentRequiredDocument_isSome s (by omega)
  obtain ⟨z, hzz⟩ := hz
  obtain ⟨u, hee⟩ := he
  have hnone : getCurrentRequiredDocument (nextDocument now s) = none := by
    unfold getCurrentRequiredDocument
    rw [if_pos]
    simp only [nextDocument]
    omega
  have hcomp : isDocumentCollectionComplete (nextDocument now s) = false := by
    simp only [isDocumentCollectionComplete, nextDocument]
    simp only [decide_eq_false_iff_not]
    omega
  simp only [skipCurrentDocument, hd, hcomp, Bool.false_eq_true, if_false,
    requestNextDocument, hnone, completeDocumentCollection, hzz, hee]
  exact ⟨trivial, rfl⟩

/-- In COLLECTING_DOCUMENTS the router dispatches to the document-upload
handler. -/
theorem routeMessage_collecting (env : Env) (now : Int) (s : Session)
    (m : WaMessage) (hst : s.state = "COLLECTING_DOCUMENTS") :
    routeMessage env now s m = handleDocumentUpload env now s m := by
  unfold routeMessage
  rw [hst]
  rfl

/-- A "skip" text message is routed to `skipCurrentDocument`. -/
theorem handleDocumentUpload_skip (env : Env) (now : Int) (s : Session) :
    handleDocumentUpload env now s skipCommand = skipCurrentDocument env now s := rfl

/-- A session in COLLECTING_DOCUMENTS with a two-item checklist and no
uploads. -/
def skipTwoSession : Session :=
  { createSession "15550003333" 0 with
      state := "COLLECTING_DOCUMENTS",
      loanType := some "Personal", employmentType := some "Salaried",
      requiredDocuments := ["Salary Slip (Last 3 months)", "Address Proof"] }

/-- C2 (counterexample): after N consecutive skips (here N = 2) the
completion check `isComplete()` is FALSE, not true as claimed — it counts
upload records, of which there are none. -/
theorem skip_to_completion_claim_false :
    isDocumentCollectionComplete (runSkips okEnv 5 2 skipTwoSession).1 = false := by
  decide

/-- C2 (amended): a COLLECTING_DOCUMENTS session with N required items
(N >= 1) and no uploads, given N consecutive "skip" commands, ends with
zero upload records and the terminal sequence fired exactly once (the
state is flipped to COMPLETED), but `isComplete()` returns false, because
the completion check counts uploads rather than the cursor. -/
theorem skip_to_completion_behavior (env : Env) (now : Int)
    (hz : ∃ z, env.zipResult = Except.ok z)
    (he : ∃ u, env.emailResult = Except.ok u) :
    ∀ (n : Nat) (s : Session), 1 ≤ n →
      s.state = "COLLECTING_DOCUMENTS" →
      s.uploadedDocuments = [] →
      s.currentDocumentIndex + n = s.requiredDocuments.length →
      (runSkips env now n s).1.state = "COMPLETED" ∧
      (runSkips env now n s).1.uploadedDocuments = [] ∧
      isDocumentCollectionComplete (runSkips env now n s).1 = false ∧
      countPackage (runSkips env now n s).2 = 1 := by
  intro n
  induction n with
  | zero => intro s h; omega
  | succ m ih =>
      intro s hn hst hup hcnt
      have hroute : routeMessage env now s skipCommand = skipCurrentDocument env now s := by
        rw [routeMessage_collecting env now s skipCommand hst,
           handleDocumentUpload_skip]
      by_cases hm : m = 0
      · subst hm
        have hlen : 1 ≤ s.requiredDocuments.length := by omega
        have hlast := skipCurrentDocument_last env now s hz he (by omega)
          (by rw [hup]; simpa using hlen)
        simp only [runSkips, hroute]
        refine ⟨?_, ?_, ?_, ?_⟩
        · rw [hlast.1]
          rfl
        · rw [hlast.1]
          simp only [setState, nextDocument]
          exact hup
        · rw [hlast.1]
          simp only [isDocumentCollectionComplete, setState, nextDocument, hup,
            List.length_nil, decide_eq_false_iff_not]
          omega
        · rw [List.append_nil]
          exact hlast.2
      · have hm1 : 1 ≤ m := by omega
        have hmid := skipCurrentDocument_mid env now s (by omega)
          (by rw [hup]; simp only [List.length_nil]; omega)
        have hnext : (nextDocument now s).state = "COLLECTING_DOCUMENTS" := hst
        have hnup : (nextDocument now s).uploadedDocuments = [] := hup
        have hncnt : (nextDocument now s).currentDocumentIndex + m =
            (nextDocument now s).requiredDocuments.length := by
          simp only [nextDocument]
          omega
        have hih := ih (nextDocument now s) hm1 hnext hnup hncnt
        simp only [runSkips, hroute, hmid.1]
        refine ⟨hih.1, hih.2.1, hih.2.2.1, ?_⟩
        simp only [countPackage, List.countP_append]
        have hc1 : countPackage (skipCurrentDocument env now s).2 = 0 := hmid.2
        have hc2 : countPackage (runSkips env now m (nextDocument now s)).2 = 1 := hih.2.2.2
        simp only [countPackage] at hc1 hc2
        omega

/-- C2 witness: the amended theorem at a concrete two-item session with
two skips. -/
theorem skip_to_completion_behavior_witness :
    (runSkips okEnv 5 2 skipTwoSession).1.state = "COMPLETED" ∧
    (runSkips okEnv 5 2 skipTwoSession).1.uploadedDocuments = [] ∧
    countPackage (runSkips okEnv 5 2 skipTwoSession).2 = 1 := by
  have h := skip_to_completion_behavior okEnv 5 ⟨_, rfl⟩ ⟨_, rfl⟩ 2
    skipTwoSession (by omega) rfl rfl (by decide)
  exact ⟨h.1, h.2.1, h.2.2.2⟩

/-- A "restart" text message as delivered by the webhook. -/
def restartCommand : WaMessage :=
  { msgType := "text", textBody := some "restart", listReplyTitle := none,
    buttonReplyTitle := none, document := none, image := none }

/-- A session waiting for the loan-type selection. -/
def waitingLoanTypeSession : Session :=
  { createSession "15550004444" 0 with state := "WAITING_LOAN_TYPE" }

/-- C5 (counterexample): a restart command issued in WAITING_LOAN_TYPE is
treated as an (invalid) loan-type answer — the session is not reset and
does not end in INITIAL. -/
theorem restart_claim_false :
    (routeMessage okEnv 5 waitingLoanTypeSession restartCommand).1.state =
      "WAITING_LOAN_TYPE" ∧
    (routeMessage okEnv 5 waitingLoanTypeSession restartCommand).1.state ≠
      "INITIAL" := by
  decide

/-- C5 (amended): `resetSession` always yields a session in INITIAL with
null loan and employment types and an empty checklist; a restart command
actually resets only from COLLECTING_DOCUMENTS ("restart"/"reset") and
COMPLETED (text containing new/start/another), and there the handler
immediately re-enters the initial flow, leaving the fresh session in
WAITING_LOAN_TYPE; from WAITING_LOAN_TYPE and WAITING_EMPLOYMENT_TYPE a
restart text changes nothing, and from INITIAL any message just moves the
session to WAITING_LOAN_TYPE. -/
theorem restart_behavior (env : Env) (now : Int) (s : Session) :
    (∀ (phone : String) (t : Int),
      (resetSession phone t).state = "INITIAL" ∧
      (resetSession phone t).loanType = none ∧
      (resetSession phone t).employmentType = none ∧
      (resetSession phone t).requiredDocuments = []) ∧
    (s.state = "COLLECTING_DOCUMENTS" →
      routeMessage env now s restartCommand =
        (setState now "WAITING_LOAN_TYPE" (resetSession s.phoneNumber now),
         [Event.send "🔄 Restarting your loan application...",
          Event.send welcomeMessage,
          Event.sendList "Please select your loan type from the list below:"])) ∧
    (s.state = "COMPLETED" →
      routeMessage env now s restartCommand =
        (setState now "WAITING_LOAN_TYPE" (resetSession s.phoneNumber now),
         [Event.send "🆕 Starting a new loan application...",
          Event.send welcomeMessage,
          Event.sendList "Please select your loan type from the list below:"])) ∧
    (s.state = "WAITING_LOAN_TYPE" →
      (routeMessage env now s restartCommand).1 = s) ∧
    (s.state = "WAITING_EMPLOYMENT_TYPE" →
      (routeMessage env now s restartCommand).1 = s) ∧
    (s.state = "INITIAL" →
      (routeMessage env now s restartCommand).1 =
        setState now "WAITING_LOAN_TYPE" s) := by
  refine ⟨fun phone t => ⟨rfl, rfl, rfl, rfl⟩, ?_, ?_, ?_, ?_, ?_⟩
  all_goals intro hst
  all_goals unfold routeMessage
  all_goals rw [hst]
  all_goals rfl

/-- C5 witness: the amended theorem at a concrete COLLECTING_DOCUMENTS
session. -/
theorem restart_behavior_witness :
    (routeMessage okEnv 5 skipTwoSession restartCommand).1 =
      setState 5 "WAITING_LOAN_TYPE" (resetSession "15550003333" 5) ∧
    (resetSession "15550003333" 5).state = "INITIAL" ∧
    (resetSession "15550003333" 5).requiredDocuments = [] := by
  have h := restart_behavior okEnv 5 skipTwoSession
  refine ⟨?_, (h.1 "15550003333" 5).1, (h.1 "15550003333" 5).2.2.2⟩
  rw [h.2.1 rfl]
  rfl

/-- C1 witness: the amended theorem at the concrete cursor-past-end
session. -/
theorem completion_check_counts_uploads_witness :
    (isDocumentCollectionComplete cursorPastEndSession = true ↔
      cursorPastEndSession.uploadedDocuments.length ≥
        cursorPastEndSession.requiredDocuments.length) ∧
    isDocumentCollectionComplete
        { cursorPastEndSession with currentDocumentIndex := 7 } =
      isDocumentCollectionComplete cursorPastEndSession :=
  completion_check_counts_uploads cursorPastEndSession 7

/-- C7 witness: the sweep characterization at a concrete store — a fresh
session is retained at a time within the timeout. -/
theorem cleanup_expired_sessions_spec_witness :
    ("15550005555", createSession "15550005555" 0) ∈
      cleanupExpiredSessions 1000 [("15550005555", createSession "15550005555" 0)] := by
  have h := cleanup_expired_sessions_spec 1000
    [("15550005555", createSession "15550005555" 0)] "15550005555"
    (createSession "15550005555" 0)
  exact h.1.mpr ⟨by decide, by decide⟩

end LoanBot
